import Mathlib

/-!
Verification of the bulk-import pipeline of the school-onboarding wizard.

The definitions below are a shallow embedding of the TypeScript source:
* `BulkImport` (validateData, handleFileUpload, handleSaveMapping,
  handleDeleteMapping, toggleExcludeAllInvalid, handleImport, getCurrentStep),
* `AttendanceStep` (processLinkItFormat, processStandardFormat,
  findBestColumnMatches over the attendance alias table).

JavaScript conventions are modelled explicitly:
* a parsed cell / object field is `Option String` (`none` = absent /
  `undefined` / `null`), truthiness of a string value is non-emptiness;
* `Number(x)` is `jsToNumber`, returning `JsNum` (`nan` models `NaN`,
  `inf` models the infinities, `val` a finite value as a rational);
* the regular expressions of the source are translated to executable
  character-list predicates.

External collaborators that are not part of this repository's sources
(the fuzzy column matcher `findBestColumnMatches` imported from
`utils/columnMatcher`, the `AVAILABLE_COLUMNS` / `COLUMN_TYPES` constant
tables, and the JavaScript `new Date` native parser) are taken as
parameters of the embedded operations.
-/

set_option autoImplicit false

universe u

/-! ## JavaScript string and number primitives -/

/-- The characters the JavaScript `\s` class (as used by `.trim()` and the
regexes of the source) covers, restricted to the code points that can occur
in the data handled here. -/
def isJsSpace (c : Char) : Bool :=
  c = ' ' || c = '\t' || c = '\n' || c = '\r' || c = '\x0b' || c = '\x0c' || c = '\xa0'

/-- `String.prototype.trim`: drop leading and trailing whitespace. -/
def jsTrimChars (cs : List Char) : List Char :=
  ((cs.dropWhile isJsSpace).reverse.dropWhile isJsSpace).reverse

def jsTrim (s : String) : String := ⟨jsTrimChars s.data⟩

/-- ASCII lower-casing of one character (`String.prototype.toLowerCase` on the
ASCII data handled here). -/
def jsLowerChar (c : Char) : Char :=
  if 'A' ≤ c ∧ c ≤ 'Z' then Char.ofNat (c.toNat + 32) else c

/-- `String.prototype.toLowerCase`. -/
def jsToLower (s : String) : String := ⟨s.data.map jsLowerChar⟩

/-- Is `sub` a prefix of `cs`? -/
def charsPrefixTest : List Char → List Char → Bool
  | [], _ => true
  | _ :: _, [] => false
  | a :: s, b :: t => a = b && charsPrefixTest s t

/-- Does `sub` occur contiguously in the second argument? -/
def charsInfixTest (sub : List Char) : List Char → Bool
  | [] => charsPrefixTest sub []
  | c :: t => charsPrefixTest sub (c :: t) || charsInfixTest sub t

/-- `String.prototype.includes sub`. -/
def strContains (s sub : String) : Bool := charsInfixTest sub.data s.data

/-- `String.prototype.split` against a character class: split on every
character satisfying `p`. -/
def splitOnPred (p : Char → Bool) (cs : List Char) : List (List Char) :=
  match cs with
  | [] => [[]]
  | c :: t =>
    let r := splitOnPred p t
    if p c then [] :: r
    else
      match r with
      | h :: t2 => (c :: h) :: t2
      | [] => [[c]]

/-- The regex `/^\d{4}-\d{2}-\d{2}$/` of the date format check. -/
def dateRegexTest (s : String) : Bool :=
  s.data.length = 10 &&
    (s.data.enum.all fun p => if p.1 = 4 || p.1 = 7 then p.2 = '-' else p.2.isDigit)

def isHexChar (c : Char) : Bool :=
  c.isDigit || ('a' ≤ c && c ≤ 'f') || ('A' ≤ c && c ≤ 'F')

/-- The regex `/^[0-9a-f]{8}-[0-9a-f]{4}-[0-9a-f]{4}-[0-9a-f]{4}-[0-9a-f]{12}$/i`
of the UUID check. -/
def uuidRegexTest (s : String) : Bool :=
  s.data.length = 36 &&
    (s.data.enum.all fun p =>
      if p.1 = 8 || p.1 = 13 || p.1 = 18 || p.1 = 23 then p.2 = '-' else isHexChar p.2)

/-- The regex `/^[^\s@]+@[^\s@]+\.[^\s@]+$/` of the email check: it accepts a
string iff it splits as `local@domain` with `local` non-empty and free of
whitespace, and `domain` free of whitespace and containing a dot that has at
least one character on each side. -/
def jsEmailTest (s : String) : Bool :=
  match splitOnPred (fun c => c = '@') s.data with
  | [localPart, domain] =>
    !localPart.isEmpty && localPart.all (fun c => !isJsSpace c) &&
    domain.all (fun c => !isJsSpace c) &&
    (List.range domain.length).any (fun p =>
      domain.get? p = some '.' && 1 ≤ p && p + 1 < domain.length)
  | _ => false

/-- Result of the JavaScript `Number(·)` conversion: `NaN`, a signed
infinity, or a finite value (modelled as a rational). -/
inductive JsNum where
  | nan : JsNum
  | inf : Bool → JsNum
  | val : ℚ → JsNum
deriving DecidableEq

def digitsToNat (cs : List Char) : Nat :=
  cs.foldl (fun n c => n * 10 + (c.toNat - '0'.toNat)) 0

/-- Decimal number literal (optional fraction, optional exponent), as accepted
by `Number(·)` after sign stripping. -/
def parseDecimal (cs : List Char) : Option ℚ :=
  let ip := cs.takeWhile Char.isDigit
  let r1 := cs.dropWhile Char.isDigit
  let fr : List Char × List Char :=
    match r1 with
    | '.' :: rest => (rest.takeWhile Char.isDigit, rest.dropWhile Char.isDigit)
    | _ => ([], r1)
  let fp := fr.1
  let r2 := fr.2
  if ip = [] ∧ fp = [] then none
  else
    let mant : ℚ := (digitsToNat (ip ++ fp) : ℚ) / (10 : ℚ) ^ fp.length
    match r2 with
    | [] => some mant
    | e :: rest =>
      if e = 'e' ∨ e = 'E' then
        let sr : Int × List Char :=
          match rest with
          | '+' :: t => (1, t)
          | '-' :: t => (-1, t)
          | t => (1, t)
        let ed := sr.2.takeWhile Char.isDigit
        let r4 := sr.2.dropWhile Char.isDigit
        if ed = [] ∨ r4 ≠ [] then none
        else some (mant * (10 : ℚ) ^ (sr.1 * (digitsToNat ed : Int)))
      else none

def hexDigitVal (c : Char) : Option Nat :=
  if c.isDigit then some (c.toNat - '0'.toNat)
  else if 'a' ≤ c ∧ c ≤ 'f' then some (c.toNat - 'a'.toNat + 10)
  else if 'A' ≤ c ∧ c ≤ 'F' then some (c.toNat - 'A'.toNat + 10)
  else none

/-- Value of a digit string in the given radix; `none` if empty or if any
character is not a digit of the radix. -/
def radixVal (radix : Nat) (cs : List Char) : Option Nat :=
  if cs = [] then none
  else
    cs.foldl (fun acc c =>
      match acc, hexDigitVal c with
      | some n, some d => if d < radix then some (n * radix + d) else none
      | _, _ => none) (some 0)

def decOrInf (cs : List Char) (neg : Bool) : JsNum :=
  if cs = "Infinity".data then .inf neg
  else
    match parseDecimal cs with
    | some q => .val (if neg then -q else q)
    | none => .nan

def parseSignedDecimal (cs : List Char) : JsNum :=
  match cs with
  | '+' :: r => decOrInf r false
  | '-' :: r => decOrInf r true
  | r => decOrInf r false

/-- JavaScript `Number(·)` applied to a string: trims whitespace, empty means
zero, and accepts signed decimal literals, `Infinity`, and `0x`/`0o`/`0b`
radix literals; everything else is `NaN`. -/
def jsToNumber (s : String) : JsNum :=
  let cs := jsTrimChars s.data
  if cs = [] then .val 0
  else
    match cs with
    | '0' :: x :: rest =>
      if x = 'x' ∨ x = 'X' then (radixVal 16 rest).elim .nan (fun n => .val (n : ℚ))
      else if x = 'o' ∨ x = 'O' then (radixVal 8 rest).elim .nan (fun n => .val (n : ℚ))
      else if x = 'b' ∨ x = 'B' then (radixVal 2 rest).elim .nan (fun n => .val (n : ℚ))
      else parseSignedDecimal cs
    | _ => parseSignedDecimal cs

/-! ## Cells and raw rows -/

/-- A raw cell of a parsed file: `none` is JavaScript `undefined`/`null`. -/
abbrev Cell := Option String

/-- Truthiness of a cell value (a missing value and the empty string are the
falsy cases arising here). -/
def cellTruthy : Cell → Bool
  | none => false
  | some v => v != ""

/-- `String(x)` applied to a cell. -/
def strOfCell : Cell → String
  | none => "undefined"
  | some v => v

/-- A raw row parsed from a CSV/Excel file with headers: an ordered
association of header name to value (JavaScript object). -/
abbrev Row := List (String × String)

/-- `row[key]` on a header-keyed raw row. -/
def rowLookup (r : Row) (k : String) : Option String :=
  (r.find? (fun p => p.1 == k)).map (·.2)

/-! ## BulkImport data model (src/unnamed/part_000) -/

structure ColumnMapping where
  csvColumn : String
  dbColumn : String
  similarity : ℚ
  matched : Bool
  manual : Bool
deriving DecidableEq

inductive VType where
  | required : VType
  | format : VType
  | mapping : VType
deriving DecidableEq

structure ValidationError where
  type : VType
  field : Option String
  row : Option Nat
  message : String
  value : Option String
deriving DecidableEq

structure RowValidation where
  rowIndex : Nat
  errors : List ValidationError
  excluded : Bool
deriving DecidableEq

/-- Declared column types looked up in the (external) `COLUMN_TYPES` table. -/
inductive ColType where
  | numeric : ColType
  | integer : ColType
  | uuid : ColType
deriving DecidableEq

/-- One iteration of the `columnMappings.forEach` body of `validateData`:
the checks applied to the value the mapping selects from the row, in source
order (required, email, date, numeric, uuid). Unmatched mappings contribute
nothing. -/
def checkMapping (requiredFields : List String) (columnTypes : String → Option ColType)
    (index : Nat) (row : Row) (m : ColumnMapping) : List ValidationError :=
  if m.matched = false then []
  else
    let value := rowLookup row m.csvColumn
    let field := m.dbColumn
    let e1 : List ValidationError :=
      if requiredFields.contains field &&
          (match value with | none => true | some v => jsTrim v == "") then
        [{ type := .required, field := some field, row := some (index + 1), value := none,
           message := s!"Missing required value for \"{field}\" in row {index + 1}" }]
      else []
    let e2 : List ValidationError :=
      if strContains (jsToLower field) "email" && cellTruthy value then
        (if jsEmailTest (value.getD "") then []
         else
           let v := value.getD ""
           [{ type := .format, field := some field, row := some (index + 1), value := some v,
              message := s!"Invalid email format in row {index + 1}: \"{v}\"" }])
      else []
    let e3 : List ValidationError :=
      if strContains field "date" && cellTruthy value then
        (if dateRegexTest (value.getD "") then []
         else
           let v := value.getD ""
           [{ type := .format, field := some field, row := some (index + 1), value := some v,
              message := s!"Invalid date format in row {index + 1} for \"{field}\". Expected YYYY-MM-DD, got \"{v}\"" }])
      else []
    let ct := columnTypes field
    let e4 : List ValidationError :=
      if (ct = some .numeric ∨ ct = some .integer) ∧ cellTruthy value then
        (if jsToNumber (value.getD "") = .nan then
           let v := value.getD ""
           [{ type := .format, field := some field, row := some (index + 1), value := some v,
              message := s!"Invalid number format in row {index + 1} for \"{field}\": \"{v}\"" }]
         else [])
      else []
    let e5 : List ValidationError :=
      if ct = some .uuid ∧ cellTruthy value then
        (if uuidRegexTest (value.getD "") then []
         else
           let v := value.getD ""
           [{ type := .format, field := some field, row := some (index + 1), value := some v,
              message := s!"Invalid UUID format in row {index + 1} for \"{field}\": \"{v}\"" }])
      else []
    e1 ++ e2 ++ e3 ++ e4 ++ e5

/-- All errors `validateData` collects for one row. -/
def rowErrorsFor (requiredFields : List String) (columnTypes : String → Option ColType)
    (mappings : List ColumnMapping) (index : Nat) (row : Row) : List ValidationError :=
  (mappings.map (checkMapping requiredFields columnTypes index row)).flatten

/-- `validateData(data)`: the flat error list and the per-row validation
states (row index, accumulated errors, `excluded` initialised to `false`). -/
def validateData (requiredFields : List String) (columnTypes : String → Option ColType)
    (mappings : List ColumnMapping) (data : List Row) :
    List ValidationError × List RowValidation :=
  ((data.enum.map (fun p => rowErrorsFor requiredFields columnTypes mappings p.1 p.2)).flatten,
   data.enum.map (fun p =>
     { rowIndex := p.1,
       errors := rowErrorsFor requiredFields columnTypes mappings p.1 p.2,
       excluded := false }))

/-- The React state of the `BulkImport` component that the import pipeline
reads and writes (the collapsible error-section grouping, a pure render of
`errors`, is omitted). -/
structure ImportState where
  errors : List ValidationError
  columnMappings : List ColumnMapping
  showMappings : Bool
  csvData : List Row
  showPreview : Bool
  csvColumns : List String
  rowValidations : List RowValidation
  excludeAllInvalid : Bool
  originalRowValidations : List RowValidation
deriving DecidableEq

/-- The filter predicate of `handleImport`: keep the row at `index` unless it
is excluded, or the bulk flag is set and the row has errors; a missing
validation entry keeps the row (JavaScript optional chaining). -/
def keepRow (rvs : List RowValidation) (excludeAll : Bool) (index : Nat) : Bool :=
  match rvs.get? index with
  | none => true
  | some rv => !(rv.excluded || (excludeAll && rv.errors.length != 0))

/-- Indices of the rows `handleImport` includes, in original order. -/
def includedIndices (s : ImportState) : List Nat :=
  (List.range s.csvData.length).filter (keepRow s.rowValidations s.excludeAllInvalid)

/-- The record built for one included row: iterate the mappings in order and,
for each matched one, assign `record[dbColumn] = row[csvColumn]` (JavaScript
object assignment, so a later mapping overwrites an earlier one). -/
def buildRecord (mappings : List ColumnMapping) (row : Row) : String → Option String :=
  mappings.foldl
    (fun acc m =>
      if m.matched then
        (fun k => if k = m.dbColumn then rowLookup row m.csvColumn else acc k)
      else acc)
    (fun _ => none)

/-- `handleImport`: filter out excluded rows (positionally) and transform the
remaining ones through the matched mappings. -/
def handleImport (s : ImportState) : List (String → Option String) :=
  (includedIndices s).map (fun i => buildRecord s.columnMappings ((s.csvData.get? i).getD []))

/-- `toggleExcludeAllInvalid`: turning the flag on snapshots the current row
validations and excludes every row with errors; turning it off restores the
snapshot. -/
def toggleExcludeAllInvalid (s : ImportState) : ImportState :=
  let newValue := !s.excludeAllInvalid
  if newValue then
    { s with excludeAllInvalid := newValue,
             originalRowValidations := s.rowValidations,
             rowValidations := s.rowValidations.map (fun row =>
               { row with excluded := if row.errors.length != 0 then true else row.excluded }) }
  else
    { s with excludeAllInvalid := newValue,
             rowValidations := s.originalRowValidations }

/-- The error object `handleSaveMapping` reports for a target column outside
the allowed set. -/
def mappingError : ValidationError :=
  { type := .mapping, field := none, row := none, value := none,
    message := "Invalid column mapping" }

/-- `handleSaveMapping(index, csvColumn, dbColumn)`: reject targets outside
the allowed column set; otherwise replace the mapping at `index` (manual,
similarity 1, matched) and run `validateData` on the rows. The source's
`validateData` reads the `columnMappings` React state captured by the current
render's closure, which `setColumnMappings` does not change, so — despite the
source comment `Re-validate data with new mappings` — the re-validation runs
under the pre-edit mapping set `s.columnMappings`, not `updatedMappings`. -/
def handleSaveMapping (availableColumns requiredFields : List String)
    (columnTypes : String → Option ColType) (s : ImportState)
    (index : Nat) (csvColumn dbColumn : String) : ImportState :=
  if availableColumns.contains dbColumn = false then
    { s with errors := [mappingError] }
  else
    let updatedMappings := s.columnMappings.enum.map (fun p =>
      if p.1 = index then
        { p.2 with csvColumn := csvColumn, dbColumn := dbColumn,
                   matched := true, manual := true, similarity := 1 }
      else p.2)
    let vr := validateData requiredFields columnTypes s.columnMappings s.csvData
    { s with columnMappings := updatedMappings, errors := vr.1,
             rowValidations := vr.2, originalRowValidations := vr.2 }

/-- `handleDeleteMapping(index)`: drop the mapping whose position is `index`;
nothing else of the state is touched. -/
def handleDeleteMapping (s : ImportState) (index : Nat) : ImportState :=
  { s with columnMappings :=
      (s.columnMappings.enum.filter (fun p => p.1 != index)).map Prod.snd }

/-- The `ValidationError` produced for an uploaded `.csv` that parses to zero
data rows. -/
def csvEmptyError : ValidationError :=
  { type := .format, field := none, row := none, value := none,
    message := "CSV file is empty" }

/-- The `.csv` branch of `handleFileUpload` after `Papa.parse` completes with
`parsedRows`. The preamble of `handleFileUpload` clears the errors and the
visibility / bulk-exclude flags; an empty parse then only reports the
`CSV file is empty` error, while a non-empty parse installs the columns of the
first row, the mappings proposed by the (external) column matcher, and the
parsed data, and runs `validateData` on the new rows. The source's
`validateData` reads the `columnMappings` state captured by the render that
created the parse callback, which `setColumnMappings` does not change, so the
validation of the freshly parsed rows runs under the pre-upload mapping set
`s.columnMappings` (empty on a first upload), not the fresh matcher output. -/
def handleFileUploadCsv (matcher : List String → List String → List ColumnMapping)
    (availableColumns requiredFields : List String)
    (columnTypes : String → Option ColType)
    (s : ImportState) (parsedRows : List Row) : ImportState :=
  let s0 := { s with errors := ([] : List ValidationError), showMappings := false,
                     showPreview := false, excludeAllInvalid := false }
  if parsedRows.length = 0 then
    { s0 with errors := [csvEmptyError] }
  else
    let columns := (parsedRows.headD []).map (·.1)
    let mappings := matcher columns availableColumns
    let vr := validateData requiredFields columnTypes s.columnMappings parsedRows
    { s0 with csvColumns := columns, columnMappings := mappings, csvData := parsedRows,
              errors := vr.1, rowValidations := vr.2, originalRowValidations := vr.2,
              showMappings := true }

/-- The record types `getCurrentStep` can infer from the template shape. -/
inductive StepKind where
  | students : StepKind
  | teachers : StepKind
  | admins : StepKind
  | classrooms : StepKind
deriving DecidableEq

/-- `getCurrentStep`: infer the record type from which distinguishing key the
template object owns, defaulting to `students`. -/
def getCurrentStep (templateKeys : List String) : StepKind :=
  if templateKeys.contains "guardian1_name" then .students
  else if templateKeys.contains "qualification1" then .teachers
  else if templateKeys.contains "admin_user_type" then .admins
  else if templateKeys.contains "classroom_name" then .classrooms
  else .students

/-- `availableColumns`: the allowed target set is the `AVAILABLE_COLUMNS`
entry (an external constant table, passed as `table`) of the inferred step. -/
def availableColumnsFor (table : StepKind → List String) (templateKeys : List String) :
    List String :=
  table (getCurrentStep templateKeys)

/-- The keys of the template `AttendanceStep` passes to `BulkImport`. -/
def attendanceTemplateKeys : List String :=
  ["school_student_id", "record_date", "total_days_present", "total_days_possible",
   "fy_absences_total", "fy_absences_excused", "fy_absences_unexcused",
   "fy_tardies_total", "attendance_year", "daily_attendance_rate",
   "mp1_attendance_rate", "mp2_attendance_rate", "mp3_attendance_rate",
   "mp4_attendance_rate"]

/-! ## AttendanceStep bulk import (src/src/components/onboarding/AttendanceStep.tsx) -/

/-- The fields of a `Student` entry that the attendance importer reads. -/
structure StudentRef where
  student_id : String
  school_student_id : Option String
  first_name : String
  last_name : String
deriving DecidableEq

/-- The optional attendance-rate block (`extra_data`). -/
structure ExtraData where
  daily_attendance_rate : Option JsNum
  mp1_attendance_rate : Option JsNum
  mp2_attendance_rate : Option JsNum
  mp3_attendance_rate : Option JsNum
  mp4_attendance_rate : Option JsNum
deriving DecidableEq

/-- An `AttendanceRecord` as built by the importer. Numeric cells pass through
`Number(·)`, so the fields hold `JsNum`. -/
structure AttendanceRec where
  student_id : String
  school_id : String
  record_date : String
  total_days_present : JsNum
  total_days_possible : JsNum
  fy_absences_total : JsNum
  fy_absences_excused : JsNum
  fy_absences_unexcused : JsNum
  fy_tardies_total : JsNum
  attendance_year : Option String
  extra_data : Option ExtraData
deriving DecidableEq

/-- `row[j]` on a two-dimensional-array row. -/
def cellAt (row : List Cell) (j : Nat) : Cell := (row.get? j).join

/-- `a || b` on cell values (JavaScript short-circuit or). -/
def cellOr (a b : Cell) : Cell := if cellTruthy a then a else b

/-- `Number(·)` applied to a cell value. -/
def numOfCell : Cell → JsNum
  | none => .nan
  | some v => jsToNumber v

/-- `extra_data` assembly: a rate is copied (through `Number`) whenever it is
neither `null` nor `undefined`; the block is omitted when no rate is set. -/
def mkExtra (d m1 m2 m3 m4 : Cell) : Option ExtraData :=
  if d.isSome || m1.isSome || m2.isSome || m3.isSome || m4.isSome then
    some { daily_attendance_rate := d.map jsToNumber,
           mp1_attendance_rate := m1.map jsToNumber,
           mp2_attendance_rate := m2.map jsToNumber,
           mp3_attendance_rate := m3.map jsToNumber,
           mp4_attendance_rate := m4.map jsToNumber }
  else none

/-- Split a string on `/` and `-` (the `split(/[\/\-]/)` of the date
fallback). -/
def splitDateChars (cs : List Char) : List (List Char) :=
  splitOnPred (fun c => c = '/' || c = '-') cs

/-- `padStart(2, '0')`. -/
def padStart2 (s : String) : String :=
  if s.data.length < 2 then ⟨List.replicate (2 - s.data.length) '0' ++ s.data⟩ else s

/-- The date normalisation of the importer: try the native `new Date` parser
(an external collaborator, passed as `nativeDate`, returning the ISO day on
success); on failure split on `/` or `-` and reassemble as `YYYY-MM-DD`,
deciding the segment order by which segment has length 4. -/
def parseJsDate (nativeDate : String → Option String) (s : String) : Option String :=
  match nativeDate s with
  | some iso => some iso
  | none =>
    let parts := (splitDateChars s.data).map (fun l => (⟨l⟩ : String))
    match parts with
    | [p0, p1, p2] =>
      some (if p0.data.length = 4 then p0 ++ "-" ++ padStart2 p1 ++ "-" ++ padStart2 p2
            else p2 ++ "-" ++ padStart2 p0 ++ "-" ++ padStart2 p1)
    | _ => none

/-- The regex `/(\d{4}-\d{2,4})/` anchored at the start of `cs`: four digits,
a dash, then greedily two to four digits. -/
def yearAt (cs : List Char) : Option (List Char) :=
  match cs with
  | a :: b :: c :: d :: '-' :: rest =>
    if [a, b, c, d].all Char.isDigit then
      let ds := (rest.takeWhile Char.isDigit).take 4
      if 2 ≤ ds.length then some ([a, b, c, d] ++ '-' :: ds) else none
    else none
  | _ => none

/-- Leftmost match of `/(\d{4}-\d{2,4})/` in a string. -/
def findYear : List Char → Option String
  | [] => none
  | c :: t =>
    match yearAt (c :: t) with
    | some m => some ⟨m⟩
    | none => findYear t

/-- Attendance-year extraction from cell B2 (`raw[1][1]`), defaulting to the
form's current `attendance_year` value `d`. -/
def extractYear (d : Option String) (raw : List (List Cell)) : Option String :=
  if 1 < raw.length then
    let cell := cellAt ((raw.get? 1).getD []) 1
    if cellTruthy cell then
      match findYear (strOfCell cell).data with
      | some y => some y
      | none => d
    else d
  else d

/-- `Row ${i + 1}: ` prefix shared by every per-row import error message. -/
def rowMsg (i : Nat) (text : String) : String := s!"Row {i + 1}: " ++ text

/-- Outcome of processing one data row of an attendance import. -/
inductive RowOutcome where
  | skip : RowOutcome
  | fail : String → RowOutcome
  | ok : AttendanceRec → RowOutcome
deriving DecidableEq

/-- The error accumulator of the row loop. -/
def collectErrs : List RowOutcome → List String
  | [] => []
  | .skip :: t => collectErrs t
  | .fail m :: t => m :: collectErrs t
  | .ok _ :: t => collectErrs t

/-- The record accumulator of the row loop. -/
def collectRecs : List RowOutcome → List AttendanceRec
  | [] => []
  | .skip :: t => collectRecs t
  | .fail _ :: t => collectRecs t
  | .ok r :: t => r :: collectRecs t

/-- The body of the `processLinkItFormat` row loop for the row at index `i`:
fixed-position cell extraction, student lookup, required-value check, date
normalisation. -/
def linkItRow (students : List StudentRef) (schoolId : Option String)
    (year : Option String) (nativeDate : String → Option String)
    (i : Nat) (row : List Cell) : RowOutcome :=
  if cellTruthy (cellAt row 0) = false then .skip
  else
    let studentId := cellAt row 2
    if cellTruthy studentId = false then .fail (rowMsg i "Missing student ID")
    else
      let sidStr := strOfCell studentId
      match students.find? (fun st => st.school_student_id == some sidStr) with
      | none => .fail (rowMsg i s!"Student with ID {sidStr} not found")
      | some student =>
        let resultDate := cellAt row 19
        let tdp := cellAt row 22
        let tdpos := cellAt row 23
        let fat := cellAt row 24
        let fae := cellAt row 25
        let fau := cellAt row 26
        let ftt := cellAt row 27
        if (cellTruthy resultDate && cellTruthy tdp && cellTruthy tdpos && cellTruthy fat &&
            cellTruthy fae && cellTruthy fau && cellTruthy ftt) = false then
          .fail (rowMsg i "Missing required attendance data")
        else
          let extra := mkExtra (cellAt row 21) (cellAt row 32) (cellAt row 43)
            (cellAt row 54) (cellAt row 65)
          let rdStr := strOfCell resultDate
          match parseJsDate nativeDate rdStr with
          | none => .fail (rowMsg i s!"Invalid date format {rdStr}")
          | some rd =>
            .ok { student_id := student.student_id,
                  school_id := schoolId.getD "",
                  record_date := rd,
                  total_days_present := numOfCell tdp,
                  total_days_possible := numOfCell tdpos,
                  fy_absences_total := numOfCell fat,
                  fy_absences_excused := numOfCell fae,
                  fy_absences_unexcused := numOfCell fau,
                  fy_tardies_total := numOfCell ftt,
                  attendance_year := year,
                  extra_data := extra }

/-- Outcomes of the `processLinkItFormat` loop (`for i = 8; i < raw.length`). -/
def linkItOutcomes (students : List StudentRef) (schoolId : Option String)
    (defaultYear : Option String) (nativeDate : String → Option String)
    (raw : List (List Cell)) : List RowOutcome :=
  (raw.enum.drop 8).map (fun p =>
    linkItRow students schoolId (extractYear defaultYear raw) nativeDate p.1 p.2)

/-- The error list `processLinkItFormat` accumulates. -/
def linkItErrs (students : List StudentRef) (schoolId : Option String)
    (defaultYear : Option String) (nativeDate : String → Option String)
    (raw : List (List Cell)) : List String :=
  collectErrs (linkItOutcomes students schoolId defaultYear nativeDate raw)

/-- `processLinkItFormat`: process all rows; when any error was recorded, show
the first 10 errors and leave the accumulated record list untouched, otherwise
append all processed records. Returns the error message set by `setError` and
the updated record list. -/
def processLinkIt (students : List StudentRef) (schoolId : Option String)
    (defaultYear : Option String) (nativeDate : String → Option String)
    (cached : List AttendanceRec) (raw : List (List Cell)) :
    Option String × List AttendanceRec :=
  let outcomes := linkItOutcomes students schoolId defaultYear nativeDate raw
  let errs := collectErrs outcomes
  if errs = [] then (none, cached ++ collectRecs outcomes)
  else (some (String.intercalate "\n" (errs.take 10)), cached)

/-- An entry of the `AVAILABLE_COLUMNS.attendance` alias table. -/
structure AttCol where
  dbColumn : String
  csvColumn : List String
deriving DecidableEq

/-- The `AVAILABLE_COLUMNS.attendance` table of `AttendanceStep`. -/
def ATTENDANCE_COLUMNS : List AttCol :=
  [⟨"school_student_id", ["school student id", "id", "student id", "studentid"]⟩,
   ⟨"record_date", ["record date", "result date", "date"]⟩,
   ⟨"total_days_present", ["total days present", "days present"]⟩,
   ⟨"total_days_possible", ["total days possible", "days possible"]⟩,
   ⟨"fy_absences_total", ["fy absences (total days)", "total absences"]⟩,
   ⟨"fy_absences_excused", ["fy absences (excused days)", "excused absences"]⟩,
   ⟨"fy_absences_unexcused", ["fy absences (unexcused days)", "unexcused absences"]⟩,
   ⟨"fy_tardies_total", ["fy tardies (total days)", "total tardies"]⟩,
   ⟨"daily_attendance_rate", ["daily attendance rate"]⟩,
   ⟨"mp1_attendance_rate", ["mp1 (daily attendance rate)", "mp1 attendance rate"]⟩,
   ⟨"mp2_attendance_rate", ["mp2 (daily attendance rate)", "mp2 attendance rate"]⟩,
   ⟨"mp3_attendance_rate", ["mp3 (daily attendance rate)", "mp3 attendance rate"]⟩,
   ⟨"mp4_attendance_rate", ["mp4 (daily attendance rate)", "mp4 attendance rate"]⟩]

/-- The local `findBestColumnMatches` of `AttendanceStep`: for each header, in
order, emit the first alias-table entry whose alias list contains the
normalised header. The pair is `(dbColumn, csvColumn)`. -/
def findBestColumnMatchesA (csvHeaders : List String) (cols : List AttCol) :
    List (String × String) :=
  csvHeaders.foldl (fun acc h =>
    let n := jsTrim (jsToLower h)
    match cols.find? (fun ac => ac.csvColumn.contains n) with
    | some ac => acc ++ [(ac.dbColumn, h)]
    | none => acc) []

/-- `processStandardFormat` header-row detection: first of the initial ten
rows whose first cell is the string `#`, else first with more than 20 cells
whose third cell mentions `id` and twentieth mentions `result date`. -/
def findHeaderRow (raw : List (List Cell)) : Option Nat :=
  let n := min 10 raw.length
  match (List.range n).find? (fun i => cellAt ((raw.get? i).getD []) 0 = some "#") with
  | some i => some i
  | none =>
    (List.range n).find? (fun i =>
      let r := (raw.get? i).getD []
      decide (20 < r.length) &&
        strContains (jsToLower (strOfCell (cellAt r 2))) "id" &&
        strContains (jsToLower (strOfCell (cellAt r 19))) "result date")

/-- The `columnMap` of `processStandardFormat`: truthy headers keyed by their
trimmed lowercase spelling, mapped to their position (later duplicates win). -/
def buildColumnMap (headers : List Cell) : String → Option Nat :=
  headers.enum.foldl (fun m p =>
    if cellTruthy p.2 then
      (fun k => if k = jsToLower (jsTrim (p.2.getD "")) then some p.1 else m k)
    else m) (fun _ => none)

/-- The `getValue` helper of `processStandardFormat`: exact (lower-cased)
header lookup first, then through the alias-table match for the requested
canonical column. -/
def getValueStd (cmap : String → Option Nat) (columnMatches : List (String × String))
    (row : List Cell) (columnName : String) : Cell :=
  match cmap (jsToLower columnName) with
  | some idx => cellAt row idx
  | none =>
    match columnMatches.find? (fun m => m.1 == columnName) with
    | some m =>
      match cmap (jsToLower m.2) with
      | some idx => cellAt row idx
      | none => none
    | none => none

/-- The body of the `processStandardFormat` row loop for the row at index `i`:
header-name driven extraction with fallback spellings, student lookup,
required-value check, date normalisation. -/
def stdRow (students : List StudentRef) (schoolId : Option String)
    (year : Option String) (nativeDate : String → Option String)
    (columnMatches : List (String × String)) (cmap : String → Option Nat)
    (i : Nat) (row : List Cell) : RowOutcome :=
  if cellTruthy (cellAt row 0) = false then .skip
  else
    let gv := getValueStd cmap columnMatches row
    let studentId :=
      cellOr (cellOr (cellOr (gv "school_student_id") (gv "ID")) (gv "Student ID"))
        (gv "StudentID")
    if cellTruthy studentId = false then .fail (rowMsg i "Missing student ID")
    else
      let sidStr := strOfCell studentId
      match students.find? (fun st => st.school_student_id == some sidStr) with
      | none => .fail (rowMsg i s!"Student with ID {sidStr} not found")
      | some student =>
        let resultDate := cellOr (cellOr (gv "record_date") (gv "Result Date")) (gv "Date")
        let tdp := cellOr (cellOr (gv "total_days_present") (gv "Total Days Present"))
          (gv "Days Present")
        let tdpos := cellOr (cellOr (gv "total_days_possible") (gv "Total Days Possible"))
          (gv "Days Possible")
        let fat := cellOr (cellOr (gv "fy_absences_total") (gv "FY Absences (Total Days)"))
          (gv "Total Absences")
        let fae := cellOr (cellOr (gv "fy_absences_excused") (gv "FY Absences (Excused Days)"))
          (gv "Excused Absences")
        let fau := cellOr (cellOr (gv "fy_absences_unexcused") (gv "FY Absences (Unexcused Days)"))
          (gv "Unexcused Absences")
        let ftt := cellOr (cellOr (gv "fy_tardies_total") (gv "FY Tardies (Total Days)"))
          (gv "Total Tardies")
        if (cellTruthy resultDate && cellTruthy tdp && cellTruthy tdpos && cellTruthy fat &&
            cellTruthy fae && cellTruthy fau && cellTruthy ftt) = false then
          .fail (rowMsg i "Missing required attendance data")
        else
          let extra := mkExtra
            (cellOr (gv "daily_attendance_rate") (gv "Daily Attendance Rate"))
            (cellOr (gv "mp1_attendance_rate") (gv "MP1 (Daily Attendance Rate)"))
            (cellOr (gv "mp2_attendance_rate") (gv "MP2 (Daily Attendance Rate)"))
            (cellOr (gv "mp3_attendance_rate") (gv "MP3 (Daily Attendance Rate)"))
            (cellOr (gv "mp4_attendance_rate") (gv "MP4 (Daily Attendance Rate)"))
          let rdStr := strOfCell resultDate
          match parseJsDate nativeDate rdStr with
          | none => .fail (rowMsg i s!"Invalid date format {rdStr}")
          | some rd =>
            .ok { student_id := student.student_id,
                  school_id := schoolId.getD "",
                  record_date := rd,
                  total_days_present := numOfCell tdp,
                  total_days_possible := numOfCell tdpos,
                  fy_absences_total := numOfCell fat,
                  fy_absences_excused := numOfCell fae,
                  fy_absences_unexcused := numOfCell fau,
                  fy_tardies_total := numOfCell ftt,
                  attendance_year := year,
                  extra_data := extra }

/-- Outcomes of the `processStandardFormat` loop: empty when no header row is
located, otherwise one outcome per row after the header. -/
def stdOutcomes (students : List StudentRef) (schoolId : Option String)
    (defaultYear : Option String) (nativeDate : String → Option String)
    (raw : List (List Cell)) : List RowOutcome :=
  match findHeaderRow raw with
  | none => []
  | some h =>
    let headers := (raw.get? h).getD []
    if headers.length = 0 then []
    else
      (raw.enum.drop (h + 1)).map (fun p =>
        stdRow students schoolId (extractYear defaultYear raw) nativeDate
          (findBestColumnMatchesA (headers.map strOfCell) ATTENDANCE_COLUMNS)
          (buildColumnMap headers) p.1 p.2)

/-- The error list `processStandardFormat` accumulates over its row loop. -/
def stdErrs (students : List StudentRef) (schoolId : Option String)
    (defaultYear : Option String) (nativeDate : String → Option String)
    (raw : List (List Cell)) : List String :=
  collectErrs (stdOutcomes students schoolId defaultYear nativeDate raw)

/-- `processStandardFormat`: locate the header row, process all following
rows; when any error was recorded, show the first 10 errors and leave the
accumulated record list untouched, otherwise append all processed records. -/
def processStandard (students : List StudentRef) (schoolId : Option String)
    (defaultYear : Option String) (nativeDate : String → Option String)
    (cached : List AttendanceRec) (raw : List (List Cell)) :
    Option String × List AttendanceRec :=
  match findHeaderRow raw with
  | none => (some "Could not locate header row (looking for column \"#\" or attendance format)", cached)
  | some h =>
    let headers := (raw.get? h).getD []
    if headers.length = 0 then (some "Could not locate header row.", cached)
    else
      let outcomes := stdOutcomes students schoolId defaultYear nativeDate raw
      let errs := collectErrs outcomes
      if errs = [] then (none, cached ++ collectRecs outcomes)
      else (some (String.intercalate "\n" (errs.take 10)), cached)

/-! ## Concrete inputs used by witnesses and counterexamples -/

/-- A native-date parser that always fails (forcing the split fallback). -/
def noDate : String → Option String := fun _ => none

/-- A row carrying the date value of the date-check claim. -/
def dateRow : Row := [("Date", "2024-13-40")]

/-- A matched mapping onto `record_date`. -/
def dateMapping : ColumnMapping := ⟨"Date", "record_date", 1, true, false⟩

/-- The round-trip row `{"Student ID":"S1","Date":"2024-01-05"}`. -/
def c2Row : Row := [("Student ID", "S1"), ("Date", "2024-01-05")]

/-- A session holding `c2Row` under mappings onto `school_student_id` and
`record_date`, with nothing excluded. -/
def c2State : ImportState :=
  { errors := [],
    columnMappings := [⟨"Student ID", "school_student_id", 1, true, false⟩,
                       ⟨"Date", "record_date", 1, true, false⟩],
    showMappings := true, csvData := [c2Row], showPreview := true,
    csvColumns := ["Student ID", "Date"],
    rowValidations := [⟨0, [], false⟩], excludeAllInvalid := false,
    originalRowValidations := [⟨0, [], false⟩] }

/-- A second matched mapping onto `record_date`, from a different source
column than `dateMapping`. -/
def dupMapping : ColumnMapping := ⟨"Student ID", "record_date", 1, true, false⟩

/-- A one-row session whose only row is manually excluded. -/
def c1State : ImportState :=
  { errors := [], columnMappings := [], showMappings := true,
    csvData := [[("A", "1")]], showPreview := true, csvColumns := ["A"],
    rowValidations := [⟨0, [], true⟩], excludeAllInvalid := false,
    originalRowValidations := [⟨0, [], false⟩] }

/-- A sample per-row validation error. -/
def c3Err : ValidationError :=
  ⟨.required, some "grade_level", some 1,
   "Missing required value for \"grade_level\" in row 1", none⟩

/-- A session with the bulk toggle off, one invalid included row, one valid
excluded row, and a stale snapshot. -/
def c3State : ImportState :=
  { errors := [c3Err], columnMappings := [], showMappings := true,
    csvData := [[("A", "")], [("A", "x")]], showPreview := true, csvColumns := ["A"],
    rowValidations := [⟨0, [c3Err], false⟩, ⟨1, [], true⟩],
    excludeAllInvalid := false, originalRowValidations := [] }

/-- The new mapping `handleSaveMapping` installs when the edit target is
`record_date`. -/
def c5NewMapping : ColumnMapping := ⟨"Date", "record_date", 1, true, true⟩

/-- A session holding one fuzzy-matched mapping onto `graduation_year` and a
row whose `Date` value breaks the strict date pattern: validating it under a
mapping onto `record_date` flags it, validating it under the original mapping
does not. -/
def c5BugState : ImportState :=
  { errors := [], columnMappings := [⟨"Date", "graduation_year", (4 : ℚ) / 5, true, false⟩],
    showMappings := true, csvData := [[("Date", "2024/13/40")]], showPreview := false,
    csvColumns := ["Date"], rowValidations := [⟨0, [], false⟩],
    excludeAllInvalid := false, originalRowValidations := [⟨0, [], false⟩] }

/-- A mapping left over from a previous upload. -/
def c7Mapping : ColumnMapping := ⟨"A", "school_student_id", 1, true, false⟩

/-- A session state as left by a previous successful upload. -/
def c7PreState : ImportState :=
  { errors := [], columnMappings := [c7Mapping], showMappings := true,
    csvData := [[("A", "x")]], showPreview := false, csvColumns := ["A"],
    rowValidations := [⟨0, [], false⟩], excludeAllInvalid := true,
    originalRowValidations := [⟨0, [], false⟩] }

/-- A column matcher stub (never invoked on the empty-file path). -/
def trivialMatcher : List String → List String → List ColumnMapping := fun _ _ => []

/-- A legacy-layout sheet whose first data row (row 9 of the file, index 8)
has a truthy first cell but no student ID in column C. -/
def linkRaw : List (List Cell) := [[], [], [], [], [], [], [], [], [some "1"]]

/-- A standard-layout sheet: a `#` header row followed by one data row with a
truthy first cell and no student-ID column at all. -/
def stdRaw : List (List Cell) := [[some "#"], [some "1"]]

/-- A matched mapping onto the required field `grade_level`. -/
def c10Mapping : ColumnMapping := ⟨"A", "grade_level", 1, true, false⟩

/-- Two rows, the first with a blank required value. -/
def c10Data : List Row := [[("A", "")], [("A", "x")]]

/-- The validation state `validateData` produces for the first row of
`c10Data`. -/
def c10Rv : RowValidation :=
  ⟨0, rowErrorsFor ["grade_level"] (fun _ => none) [c10Mapping] 0 [("A", "")], false⟩

/-! ## Helper lemmas -/

theorem enumFrom_filter_gt {α : Type u} (t : List α) (m j : Nat) (h : j < m) :
    (List.enumFrom m t).filter (fun p => p.1 != j) = List.enumFrom m t := by
  induction t generalizing m with
  | nil => rfl
  | cons a t ih =>
    have hne : (m != j) = true := by simpa using Nat.ne_of_gt h
    simp only [List.enumFrom, List.filter, hne]
    rw [ih (m + 1) (Nat.lt_succ_of_lt h)]

theorem enumFrom_filter_ne_eraseIdx {α : Type u} (l : List α) (k n : Nat) :
    ((List.enumFrom k l).filter (fun p => p.1 != (k + n))).map Prod.snd = l.eraseIdx n := by
  induction l generalizing k n with
  | nil => rfl
  | cons a t ih =>
    cases n with
    | zero =>
      have hself : (k != k + 0) = false := by simp
      simp only [List.enumFrom, List.filter, hself, List.eraseIdx]
      rw [enumFrom_filter_gt t (k + 1) (k + 0) (by omega), List.enumFrom_map_snd]
    | succ n =>
      have hne : (k != k + (n + 1)) = true := by simp
      simp only [List.enumFrom, List.filter, hne, List.eraseIdx, List.map]
      have := ih (k + 1) n
      rw [show k + (n + 1) = (k + 1) + n by omega]
      rw [this]

theorem get?_enum_map {α β : Type u} (l : List α) (f : Nat × α → β) (n : Nat) :
    (l.enum.map f).get? n = (l.get? n).map (fun a => f (n, a)) := by
  rw [List.get?_eq_getElem?, List.getElem?_map, List.getElem?_enum, List.get?_eq_getElem?]
  cases l[n]? <;> rfl

theorem fail_mem_of_mem_collectErrs (l : List RowOutcome) (e : String)
    (h : e ∈ collectErrs l) : RowOutcome.fail e ∈ l := by
  induction l with
  | nil => simp [collectErrs] at h
  | cons a t ih =>
    cases a with
    | skip =>
      simp only [collectErrs] at h
      exact List.mem_cons_of_mem _ (ih h)
    | fail msg =>
      simp only [collectErrs] at h
      rcases List.mem_cons.mp h with h | h
      · subst h; exact List.mem_cons_self _ _
      · exact List.mem_cons_of_mem _ (ih h)
    | ok r =>
      simp only [collectErrs] at h
      exact List.mem_cons_of_mem _ (ih h)

theorem linkItRow_fail_shape (students : List StudentRef) (schoolId : Option String)
    (year : Option String) (nd : String → Option String) (i : Nat) (row : List Cell)
    (m : String) (h : linkItRow students schoolId year nd i row = .fail m) :
    ∃ t, m = rowMsg i t := by
  simp only [linkItRow] at h
  repeat' split at h
  all_goals first
    | exact RowOutcome.noConfusion h
    | (injection h with h; exact ⟨_, h.symm⟩)

theorem stdRow_fail_shape (students : List StudentRef) (schoolId : Option String)
    (year : Option String) (nd : String → Option String)
    (columnMatches : List (String × String)) (cmap : String → Option Nat)
    (i : Nat) (row : List Cell)
    (m : String) (h : stdRow students schoolId year nd columnMatches cmap i row = .fail m) :
    ∃ t, m = rowMsg i t := by
  simp only [stdRow] at h
  repeat' split at h
  all_goals first
    | exact RowOutcome.noConfusion h
    | (injection h with h; exact ⟨_, h.symm⟩)

/-! ## Claim theorems -/

/-- Claim C1: for every import session state, the record sequence produced by
`commitImport` (`handleImport`) contains no record built from a row whose
exclusion flag is true, and, whenever the bulk exclude-all-invalid flag is
true, no record built from a row whose validation has one or more issues:
any such row's index is dropped by the filter, and the output is exactly the
transform of the rows at the surviving indices. -/
theorem C1_commit_never_includes_excluded_rows (s : ImportState) (i : Nat)
    (rv : RowValidation) (hrv : s.rowValidations.get? i = some rv)
    (h : rv.excluded = true ∨ (s.excludeAllInvalid = true ∧ rv.errors.length ≠ 0)) :
    i ∉ includedIndices s ∧
    handleImport s = (includedIndices s).map
      (fun j => buildRecord s.columnMappings ((s.csvData.get? j).getD [])) := by
  refine ⟨?_, rfl⟩
  intro hmem
  have hk := (List.mem_filter.mp hmem).2
  simp only [keepRow, hrv] at hk
  rcases h with h | ⟨h1, h2⟩
  · simp [h] at hk
  · simp [h1, h2] at hk

/-- Witness for C1 at a one-row session whose row is manually excluded. -/
theorem C1_witness :
    (0 : Nat) ∉ includedIndices c1State ∧
    handleImport c1State = (includedIndices c1State).map
      (fun j => buildRecord c1State.columnMappings ((c1State.csvData.get? j).getD [])) :=
  C1_commit_never_includes_excluded_rows c1State 0 ⟨0, [], true⟩ rfl (Or.inl rfl)

/-- Claim C2: `handleImport` builds each included row's record by iterating
the mapping list in order and writing `record[dbColumn] = row[csvColumn]` for
every matched mapping, so a mapping appended after others targeting the same
`dbColumn` wins (last-write-wins); and the concrete row
`{"Student ID":"S1","Date":"2024-01-05"}` under mappings onto
`school_student_id` and `record_date` commits to exactly one record with
`school_student_id = "S1"` and `record_date = "2024-01-05"`. -/
theorem C2_last_write_wins_round_trip :
    (∀ (ms : List ColumnMapping) (m : ColumnMapping) (row : Row),
        m.matched = true →
        buildRecord (ms ++ [m]) row m.dbColumn = rowLookup row m.csvColumn) ∧
    (handleImport c2State).length = 1 ∧
    ((handleImport c2State).headD (fun _ => none)) "school_student_id" = some "S1" ∧
    ((handleImport c2State).headD (fun _ => none)) "record_date" = some "2024-01-05" := by
  refine ⟨?_, by decide, by decide, by decide⟩
  intro ms m row hm
  rw [buildRecord, List.foldl_append]
  simp [hm]

/-- Witness for C2: with two matched mappings both targeting `record_date`,
the record field equals the value selected by the later mapping. -/
theorem C2_witness :
    buildRecord ([dupMapping] ++ [dateMapping]) c2Row dateMapping.dbColumn =
      rowLookup c2Row dateMapping.csvColumn :=
  C2_last_write_wins_round_trip.1 [dupMapping] dateMapping c2Row rfl

/-- Claim C3: with the bulk toggle off, running `toggleExcludeAllInvalid`
twice with no intervening per-row toggles restores exactly the original
row-validation state (every row's excluded flag equals its pre-ON value), and
leaves the bulk flag off. -/
theorem C3_bulk_toggle_restores_snapshot (s : ImportState)
    (h : s.excludeAllInvalid = false) :
    (toggleExcludeAllInvalid (toggleExcludeAllInvalid s)).rowValidations =
      s.rowValidations ∧
    (toggleExcludeAllInvalid (toggleExcludeAllInvalid s)).excludeAllInvalid = false := by
  simp [toggleExcludeAllInvalid, h]

/-- Witness for C3 at a session with one invalid included row, one valid
excluded row, and a stale snapshot. -/
theorem C3_witness :
    (toggleExcludeAllInvalid (toggleExcludeAllInvalid c3State)).rowValidations =
      c3State.rowValidations ∧
    (toggleExcludeAllInvalid (toggleExcludeAllInvalid c3State)).excludeAllInvalid = false :=
  C3_bulk_toggle_restores_snapshot c3State rfl

/-- Claim C4: in both attendance import paths (`processLinkItFormat` and
`processStandardFormat`), if at least one processed row produced an error,
then the accumulated attendance list is returned unchanged (zero records
appended, no partial commit) and the reported message is the first at most 10
errors, each of which is the failure message of some row and carries that
row's number (`Row i+1: ...`). -/
theorem C4_attendance_all_or_nothing
    (students : List StudentRef) (schoolId : Option String) (dy : Option String)
    (nd : String → Option String) (cached : List AttendanceRec) (raw : List (List Cell)) :
    (linkItErrs students schoolId dy nd raw ≠ [] →
      (processLinkIt students schoolId dy nd cached raw).2 = cached ∧
      (processLinkIt students schoolId dy nd cached raw).1 =
        some (String.intercalate "\n" ((linkItErrs students schoolId dy nd raw).take 10)) ∧
      ((linkItErrs students schoolId dy nd raw).take 10).length ≤ 10 ∧
      (∀ e ∈ linkItErrs students schoolId dy nd raw, ∃ i row t,
        (i, row) ∈ raw.enum ∧
        linkItRow students schoolId (extractYear dy raw) nd i row = .fail e ∧
        e = rowMsg i t)) ∧
    (stdErrs students schoolId dy nd raw ≠ [] →
      (processStandard students schoolId dy nd cached raw).2 = cached ∧
      (processStandard students schoolId dy nd cached raw).1 =
        some (String.intercalate "\n" ((stdErrs students schoolId dy nd raw).take 10)) ∧
      ((stdErrs students schoolId dy nd raw).take 10).length ≤ 10 ∧
      (∀ e ∈ stdErrs students schoolId dy nd raw, ∃ i t, e = rowMsg i t)) := by
  constructor
  · intro h
    have hc : ¬ (collectErrs (linkItOutcomes students schoolId dy nd raw) = []) := h
    have hp : processLinkIt students schoolId dy nd cached raw =
        (some (String.intercalate "\n" ((linkItErrs students schoolId dy nd raw).take 10)),
         cached) := by
      simp only [processLinkIt]
      rw [if_neg hc]
      rfl
    refine ⟨by rw [hp], by rw [hp], ?_, ?_⟩
    · simp
    · intro e he
      have hf := fail_mem_of_mem_collectErrs _ _ he
      simp only [linkItOutcomes] at hf
      obtain ⟨p, hp1, hp2⟩ := List.mem_map.mp hf
      obtain ⟨t, ht⟩ := linkItRow_fail_shape _ _ _ _ _ _ _ hp2
      exact ⟨p.1, p.2, t, List.mem_of_mem_drop hp1, hp2, ht⟩
  · intro h
    cases hh : findHeaderRow raw with
    | none =>
      exfalso
      apply h
      simp [stdErrs, stdOutcomes, hh, collectErrs]
    | some hdr =>
      by_cases hl : ((raw.get? hdr).getD []).length = 0
      · exfalso
        apply h
        have hnil : raw[hdr]?.getD [] = [] := by
          rw [← List.get?_eq_getElem?]
          exact List.length_eq_zero.mp hl
        simp [stdErrs, stdOutcomes, hh, hnil, collectErrs]
      · have hc : ¬ (collectErrs (stdOutcomes students schoolId dy nd raw) = []) := h
        have hp : processStandard students schoolId dy nd cached raw =
            (some (String.intercalate "\n" ((stdErrs students schoolId dy nd raw).take 10)),
             cached) := by
          simp only [processStandard, hh]
          rw [if_neg hl, if_neg hc]
          rfl
        refine ⟨by rw [hp], by rw [hp], ?_, ?_⟩
        · simp
        · intro e he
          have hf := fail_mem_of_mem_collectErrs _ _ he
          simp only [stdOutcomes, hh] at hf
          rw [if_neg hl] at hf
          obtain ⟨p, hp1, hp2⟩ := List.mem_map.mp hf
          obtain ⟨t, ht⟩ := stdRow_fail_shape _ _ _ _ _ _ _ _ _ hp2
          exact ⟨p.1, t, ht⟩

/-- Witness for C4: a legacy-layout sheet whose first data row lacks a student
ID, and a standard-layout sheet whose data row lacks a student ID, both reject
the batch (nothing appended) and report the collected errors. -/
theorem C4_witness :
    (processLinkIt [] none none noDate [] linkRaw).2 = [] ∧
    (processLinkIt [] none none noDate [] linkRaw).1 =
      some (String.intercalate "\n" ((linkItErrs [] none none noDate linkRaw).take 10)) ∧
    (processStandard [] none none noDate [] stdRaw).2 = [] ∧
    (processStandard [] none none noDate [] stdRaw).1 =
      some (String.intercalate "\n" ((stdErrs [] none none noDate stdRaw).take 10)) := by
  have h1 := (C4_attendance_all_or_nothing [] none none noDate [] linkRaw).1 (by decide)
  have h2 := (C4_attendance_all_or_nothing [] none none noDate [] stdRaw).2 (by decide)
  exact ⟨h1.1, h1.2.1, h2.1, h2.2.1⟩

/-- Claim C5, evaluated at the failing input: the invalid-target branch is a
no-op that reports the mapping error, and the allowed-target branch installs
the manual mapping (`matched`, `manual`, similarity 1) at the index, as
claimed — but the stored row validations are the result of validating the rows
under the PRE-edit mapping set (the stale closure), not the new one: at this
input the new mapping set flags the row's date value while the state after the
edit records no issue for it, so the claimed "re-validates all rows under the
new mapping set" does not hold of the code. -/
theorem C5_stale_revalidation :
    handleSaveMapping ["record_date"] [] (fun _ => none) c5BugState 0 "Date" "bogus" =
      { c5BugState with errors := [mappingError] } ∧
    (handleSaveMapping ["record_date"] [] (fun _ => none) c5BugState 0 "Date"
        "record_date").columnMappings = [c5NewMapping] ∧
    (handleSaveMapping ["record_date"] [] (fun _ => none) c5BugState 0 "Date"
        "record_date").rowValidations =
      (validateData [] (fun _ => none) c5BugState.columnMappings c5BugState.csvData).2 ∧
    (handleSaveMapping ["record_date"] [] (fun _ => none) c5BugState 0 "Date"
        "record_date").rowValidations = [⟨0, [], false⟩] ∧
    (validateData [] (fun _ => none) [c5NewMapping] c5BugState.csvData).1.length = 1 ∧
    (validateData [] (fun _ => none) [c5NewMapping] c5BugState.csvData).2 ≠
      (handleSaveMapping ["record_date"] [] (fun _ => none) c5BugState 0 "Date"
        "record_date").rowValidations := by
  refine ⟨rfl, rfl, rfl, rfl, rfl, by decide⟩

/-- Counterexample to claim C6: the value `2024-13-40` on `record_date` is
NOT flagged — `validateData` returns no issue at all for that row, because
the value matches the `\d{4}-\d{2}-\d{2}` pattern. -/
theorem C6_counterexample :
    (validateData [] (fun _ => none) [dateMapping] [dateRow]).1 = [] ∧
    (validateData [] (fun _ => none) [dateMapping] [dateRow]).2 =
      [⟨0, [], false⟩] := by decide

/-- Claim C6 as amended: the date check is format-only — `2024-13-40` matches
the strict digit pattern `\d{4}-\d{2}-\d{2}` and is therefore accepted without
any issue (no calendar validation), while a value breaking the pattern, such
as `2024/13/40`, is flagged with exactly one `FormatInvalid` issue on
`record_date`. -/
theorem C6_date_check_format_only :
    dateRegexTest "2024-13-40" = true ∧
    (validateData [] (fun _ => none) [dateMapping] [dateRow]).1 = [] ∧
    dateRegexTest "2024/13/40" = false ∧
    (validateData [] (fun _ => none) [dateMapping] [[("Date", "2024/13/40")]]).1 =
      [{ type := .format, field := some "record_date", row := some 1,
         value := some "2024/13/40",
         message := "Invalid date format in row 1 for \"record_date\". Expected YYYY-MM-DD, got \"2024/13/40\"" }] := by
  decide

/-- Counterexample to claim C7: uploading an empty `.csv` does not reset all
session state and does not leave the session without column mappings — the
mappings, parsed rows and row validations of the previous upload survive. -/
theorem C7_counterexample :
    (handleFileUploadCsv trivialMatcher [] [] (fun _ => none) c7PreState []).columnMappings =
      [c7Mapping] ∧
    [c7Mapping] ≠ ([] : List ColumnMapping) ∧
    (handleFileUploadCsv trivialMatcher [] [] (fun _ => none) c7PreState []).csvData =
      [[("A", "x")]] ∧
    (handleFileUploadCsv trivialMatcher [] [] (fun _ => none) c7PreState []).rowValidations =
      [⟨0, [], false⟩] := by
  refine ⟨rfl, by decide, rfl, rfl⟩

/-- Claim C7 as amended: uploading a `.csv` that parses to zero data rows
resets the error list, the mapping/preview visibility flags and the bulk
exclude flag, and produces exactly one validation issue, of the format kind
with message `CSV file is empty`; it performs no further processing — no new
mappings, columns, rows or row validations are produced, and whatever the
session held before the upload stays in place. -/
theorem C7_empty_csv_upload (matcher : List String → List String → List ColumnMapping)
    (ac rf : List String) (ct : String → Option ColType) (s : ImportState) :
    handleFileUploadCsv matcher ac rf ct s [] =
      { s with errors := [csvEmptyError], showMappings := false, showPreview := false,
               excludeAllInvalid := false } := rfl

/-- Claim C8: `handleDeleteMapping` removes exactly the mapping at the given
index and leaves everything else — in particular the row validations and the
error list — unchanged: no re-validation happens. -/
theorem C8_delete_mapping_frame (s : ImportState) (index : Nat) :
    (handleDeleteMapping s index).columnMappings = s.columnMappings.eraseIdx index ∧
    (handleDeleteMapping s index).rowValidations = s.rowValidations ∧
    (handleDeleteMapping s index).errors = s.errors ∧
    (handleDeleteMapping s index).csvData = s.csvData ∧
    (handleDeleteMapping s index).originalRowValidations = s.originalRowValidations ∧
    (handleDeleteMapping s index).excludeAllInvalid = s.excludeAllInvalid := by
  refine ⟨?_, rfl, rfl, rfl, rfl, rfl⟩
  show ((s.columnMappings.enum.filter _).map Prod.snd) = _
  have := enumFrom_filter_ne_eraseIdx s.columnMappings 0 index
  simpa [List.enum] using this

/-- Claim C9: `getCurrentStep` inspects the template keys in the fixed order
`guardian1_name` (students), `qualification1` (teachers), `admin_user_type`
(admins), `classroom_name` (classrooms) and defaults to students; the
attendance template owns none of the four keys, so it selects the students
column set as the allowed mapping targets. -/
theorem C9_step_inference (ks : List String) :
    (ks.contains "guardian1_name" = true → getCurrentStep ks = .students) ∧
    (ks.contains "guardian1_name" = false → ks.contains "qualification1" = true →
      getCurrentStep ks = .teachers) ∧
    (ks.contains "guardian1_name" = false → ks.contains "qualification1" = false →
      ks.contains "admin_user_type" = true → getCurrentStep ks = .admins) ∧
    (ks.contains "guardian1_name" = false → ks.contains "qualification1" = false →
      ks.contains "admin_user_type" = false → ks.contains "classroom_name" = true →
      getCurrentStep ks = .classrooms) ∧
    (ks.contains "guardian1_name" = false → ks.contains "qualification1" = false →
      ks.contains "admin_user_type" = false → ks.contains "classroom_name" = false →
      getCurrentStep ks = .students) ∧
    getCurrentStep attendanceTemplateKeys = .students ∧
    (∀ table : StepKind → List String,
      availableColumnsFor table attendanceTemplateKeys = table .students) := by
  refine ⟨?_, ?_, ?_, ?_, ?_, by decide, ?_⟩
  · intro h1
    have h1m : "guardian1_name" ∈ ks := by simpa using h1
    simp [getCurrentStep, h1m]
  · intro h1 h2
    have h1m : "guardian1_name" ∉ ks := by simpa using h1
    have h2m : "qualification1" ∈ ks := by simpa using h2
    simp [getCurrentStep, h1m, h2m]
  · intro h1 h2 h3
    have h1m : "guardian1_name" ∉ ks := by simpa using h1
    have h2m : "qualification1" ∉ ks := by simpa using h2
    have h3m : "admin_user_type" ∈ ks := by simpa using h3
    simp [getCurrentStep, h1m, h2m, h3m]
  · intro h1 h2 h3 h4
    have h1m : "guardian1_name" ∉ ks := by simpa using h1
    have h2m : "qualification1" ∉ ks := by simpa using h2
    have h3m : "admin_user_type" ∉ ks := by simpa using h3
    have h4m : "classroom_name" ∈ ks := by simpa using h4
    simp [getCurrentStep, h1m, h2m, h3m, h4m]
  · intro h1 h2 h3 h4
    have h1m : "guardian1_name" ∉ ks := by simpa using h1
    have h2m : "qualification1" ∉ ks := by simpa using h2
    have h3m : "admin_user_type" ∉ ks := by simpa using h3
    have h4m : "classroom_name" ∉ ks := by simpa using h4
    simp [getCurrentStep, h1m, h2m, h3m, h4m]
  · intro table
    rw [availableColumnsFor,
      show getCurrentStep attendanceTemplateKeys = .students from by decide]

/-- Witness for C9 at one concrete template per branch. -/
theorem C9_witness :
    getCurrentStep ["guardian1_name"] = .students ∧
    getCurrentStep ["qualification1"] = .teachers ∧
    getCurrentStep ["admin_user_type"] = .admins ∧
    getCurrentStep ["classroom_name"] = .classrooms ∧
    getCurrentStep [] = .students :=
  ⟨(C9_step_inference ["guardian1_name"]).1 (by decide),
   (C9_step_inference ["qualification1"]).2.1 (by decide) (by decide),
   (C9_step_inference ["admin_user_type"]).2.2.1 (by decide) (by decide) (by decide),
   (C9_step_inference ["classroom_name"]).2.2.2.1 (by decide) (by decide) (by decide)
     (by decide),
   (C9_step_inference []).2.2.2.2.1 (by decide) (by decide) (by decide) (by decide)⟩

/-- Claim C10: `validateData` returns exactly one `RowValidation` per input
row, in input order: the list has the same length as the data, the entry at
position `i` is built from the row at position `i` with `rowIndex = i` and
`excluded = false`, so the positional indexing of `handleImport` is aligned. -/
theorem C10_validation_alignment (rf : List String) (ct : String → Option ColType)
    (mappings : List ColumnMapping) (data : List Row) :
    (validateData rf ct mappings data).2.length = data.length ∧
    (∀ i, (validateData rf ct mappings data).2.get? i =
      (data.get? i).map (fun row =>
        ({ rowIndex := i, errors := rowErrorsFor rf ct mappings i row,
           excluded := false } : RowValidation))) ∧
    (∀ i rv, (validateData rf ct mappings data).2.get? i = some rv →
      rv.rowIndex = i ∧ rv.excluded = false) := by
  refine ⟨by simp [validateData], ?_, ?_⟩
  · intro i
    exact get?_enum_map data _ i
  · intro i rv hrv
    simp only [validateData] at hrv
    rw [get?_enum_map data _ i] at hrv
    cases hd : data.get? i with
    | none => rw [hd] at hrv; exact absurd hrv (by simp)
    | some row =>
      rw [hd] at hrv
      have heq : (⟨i, rowErrorsFor rf ct mappings i row, false⟩ : RowValidation) = rv := by
        simpa using hrv
      rw [← heq]
      exact ⟨rfl, rfl⟩

/-- Witness for C10 at the first entry of a concrete two-row validation. -/
theorem C10_witness : c10Rv.rowIndex = 0 ∧ c10Rv.excluded = false :=
  (C10_validation_alignment ["grade_level"] (fun _ => none) [c10Mapping] c10Data).2.2
    0 c10Rv rfl
